import Mathlib

/-!
Verification development for the Beijing urban flood-inundation pipeline
(SCS-CN runoff model plus passive "bathtub" inundation solver).

The repository ships the Google Earth Engine data-preparation script
(`04_Scripts/GEE_Data_Prep_v2.js`) and the project README.  The core
per-watershed simulation (`04_Scripts/Local_Simulation_v2.py`) and the result
merger (`04_Scripts/Local_Merge_v2.py`) are referenced by the README but are
not part of the available sources, so those components are modelled here from
the specification's own description (each such definition is marked
"Modelled from the spec").  Real numbers of the pipeline are embedded as
exact rationals (ℚ); grids are lists of optional cell values, `none` being
the no-data sentinel.
-/

namespace FloodSim

/-! ## Data-preparation embedding (from `src/04_Scripts/GEE_Data_Prep_v2.js`) -/

/-- Source land-cover class codes of the remap call in `GEE_Data_Prep_v2.js`
(`var fromValues = [10, 20, 30, 40, 50, 60, 70, 80, 90, 95, 100]`). -/
def fromValues : List ℤ := [10, 20, 30, 40, 50, 60, 70, 80, 90, 95, 100]

/-- Target CN values of the remap call in `GEE_Data_Prep_v2.js`
(`var toValues = [36, 48, 61, 78, 92, 85, 30, 100, 100, 100, 85]`). -/
def toValues : List ℤ := [36, 48, 61, 78, 92, 85, 30, 100, 100, 100, 85]

/-- CN mapping rules stated in the README ("CN Value Mapping Rules",
codes 1-4 ↦ 15, 5 ↦ 100, 7 ↦ 30, 8 ↦ 85), used by the local Python
pipeline's dynamic land-use-to-CN mapping. -/
def readmeCnRules : List (ℤ × ℤ) := [(1, 15), (2, 15), (3, 15), (4, 15), (5, 100), (7, 30), (8, 85)]

/-- Settings of one `Export.image.toDrive` call in `GEE_Data_Prep_v2.js`:
the exported description, Drive folder, pixel scale in metres, and
coordinate reference system string. -/
structure ExportImageConfig where
  description : String
  folder : String
  scale : ℚ
  crs : String
deriving DecidableEq, Repr

/-- The DEM export call of `GEE_Data_Prep_v2.js` (section 4.1):
`description: 'Beijing_DEM_30m'`, `scale: 30`, `crs: 'EPSG:32650'`. -/
def demExport : ExportImageConfig :=
  { description := "Beijing_DEM_30m", folder := "Flood_Analysis_Input",
    scale := 30, crs := "EPSG:32650" }

/-- The CN-raster export call of `GEE_Data_Prep_v2.js` (section 4.2):
`description: 'Beijing_CN_10m'`, `scale: 10`, `crs: 'EPSG:32650'`. -/
def cnExport : ExportImageConfig :=
  { description := "Beijing_CN_10m", folder := "Flood_Analysis_Input",
    scale := 10, crs := "EPSG:32650" }

/-! ## CN Mapper -/

/-- Errors of the CN Mapper.  `unmappedClass` carries the offending
land-cover code and the watershed identifier. -/
inductive CNError where
  | unmappedClass (code : ℤ) (watershed : String)
deriving DecidableEq, Repr

/-- Modelled from the spec: the CN Mapper of `Local_Simulation_v2.py` (not in
the available sources).  Converts a classification raster (list of optional
class codes) into a CN raster via the lookup table; no-data cells propagate
unchanged; a code with no table entry fails with `UnmappedClassError` naming
the code and the watershed, never defaulting or masking. -/
def cnMap (table : List (ℤ × ℚ)) (watershed : String) :
    List (Option ℤ) → Except CNError (List (Option ℚ))
  | [] => .ok []
  | none :: rest => (cnMap table watershed rest).map (fun r => none :: r)
  | some code :: rest =>
    match table.lookup code with
    | some cn => (cnMap table watershed rest).map (fun r => some cn :: r)
    | none => .error (.unmappedClass code watershed)

/-! ## Runoff Calculator -/

/-- Modelled from the spec: potential maximum retention
`S = 25400/CN - 254` (mm) of the SCS-CN model in `Local_Simulation_v2.py`
(not in the available sources). -/
def sRet (cn : ℚ) : ℚ := 25400 / cn - 254

/-- Modelled from the spec: initial abstraction `Ia = 0.2 * S` (mm). -/
def iaAbs (cn : ℚ) : ℚ := 0.2 * sRet cn

/-- Modelled from the spec: SCS-CN runoff depth Q (mm) of
`Local_Simulation_v2.py` (not in the available sources).  The boundary
inputs CN = 0 (no runoff) and CN = 100 (S = 0, full runoff Q = P) are
closed-form branches, so the general formula's arithmetic never divides by
CN = 0 nor meets S = 0. -/
def runoffQ (cn P : ℚ) : ℚ :=
  if cn = 0 then 0
  else if cn = 100 then P
  else if iaAbs cn < P then (P - iaAbs cn) ^ 2 / (P - iaAbs cn + sRet cn) else 0

/-- Modelled from the spec: target flood volume (m³) = runoff depth Q
(mm, converted to metres) × watershed planar area (m²). -/
def targetVolume (q areaM2 : ℚ) : ℚ := q / 1000 * areaM2

/-! ## Elevation grid and Volume Function -/

/-- A watershed's clipped raster: cell values with `none` as the no-data
sentinel, and the planar area of one cell (m²).  Grid geometry (origin,
cell size, coordinate reference) is normalised upstream, so only the cell
values and the cell area matter to the core numerics. -/
structure Grid where
  cells : List (Option ℚ)
  cellArea : ℚ
deriving Repr

/-- Contribution of one cell to the impounded volume at `level`: a valid
cell strictly below the level contributes `(level - elevation) * cellArea`,
any other cell (including no-data) contributes nothing. -/
def cellVol (area level : ℚ) : Option ℚ → ℚ
  | none => 0
  | some e => if e < level then (level - e) * area else 0

/-- Modelled from the spec: impounded volume of a cell list at a candidate
level, by direct array reduction (the Volume Function of
`Local_Simulation_v2.py`, not in the available sources). -/
def volAux (area level : ℚ) (cs : List (Option ℚ)) : ℚ :=
  (cs.map (cellVol area level)).sum

/-- Modelled from the spec: the Volume Function `volume(level)` of a
watershed grid. -/
def Grid.volume (g : Grid) (level : ℚ) : ℚ := volAux g.cellArea level g.cells

/-- The valid (non-no-data) elevations of a grid. -/
def validElevs (g : Grid) : List ℚ := g.cells.filterMap id

/-- Minimum valid elevation of the watershed (0 for an all-no-data grid). -/
def minElev (g : Grid) : ℚ :=
  match validElevs g with
  | [] => 0
  | e :: es => es.foldl min e

/-- Maximum valid elevation of the watershed (0 for an all-no-data grid). -/
def maxElev (g : Grid) : ℚ :=
  match validElevs g with
  | [] => 0
  | e :: es => es.foldl max e

/-! ## Binary-Search Solver -/

/-- Result record of the solver: solved water level, achieved volume,
convergence flag, and whether the target exceeded the watershed's maximum
depression volume (`OverflowWarning`). -/
structure SolverResult where
  level : ℚ
  achieved : ℚ
  converged : Bool
  overflow : Bool
deriving Repr

/-- Modelled from the spec: the bisection loop of `Local_Simulation_v2.py`
(not in the available sources).  Probes `mid = (lo + hi) / 2`; if
`volume(mid) < target` the lower bound moves up, else the upper bound moves
down; stops when `hi - lo` falls below the elevation tolerance or the
iteration budget is exhausted, returning the final bracket. -/
def bisect (area : ℚ) (cs : List (Option ℚ)) (target tol : ℚ) :
    ℕ → ℚ → ℚ → ℚ × ℚ
  | 0, lo, hi => (lo, hi)
  | n + 1, lo, hi =>
    if hi - lo < tol then (lo, hi)
    else if volAux area ((lo + hi) / 2) cs < target then
      bisect area cs target tol n ((lo + hi) / 2) hi
    else
      bisect area cs target tol n lo ((lo + hi) / 2)

/-- Modelled from the spec: the Binary-Search Solver of
`Local_Simulation_v2.py` (not in the available sources), run on a
non-degenerate watershed.  `lo`/`hi` start at the minimum/maximum valid
elevation.  If `volume(hi) < target` the level is clipped to the rim `hi`
with `OverflowWarning`; otherwise the bracket is bisected for `maxIter`
iterations with elevation tolerance `tol`, the midpoint of the final
bracket is the solved level, and `converged` records whether the bracket
met the tolerance. -/
def solve (g : Grid) (target tol : ℚ) (maxIter : ℕ) : SolverResult :=
  if g.volume (maxElev g) < target then
    { level := maxElev g, achieved := g.volume (maxElev g),
      converged := false, overflow := true }
  else
    let p := bisect g.cellArea g.cells target tol maxIter (minElev g) (maxElev g)
    { level := (p.1 + p.2) / 2, achieved := g.volume ((p.1 + p.2) / 2),
      converged := decide (p.2 - p.1 < tol), overflow := false }

/-! ## Depth Raster Generator -/

/-- Modelled from the spec: per-cell depth of the Depth Raster Generator of
`Local_Simulation_v2.py` (not in the available sources):
`max(0, solved_level - elevation)` on a valid cell, no-data propagated. -/
def depthCell (level : ℚ) : Option ℚ → Option ℚ
  | none => none
  | some e => some (max 0 (level - e))

/-- Modelled from the spec: the watershed's depth raster at the solved
level (cells outside the watershed mask are already no-data in the clipped
grid). -/
def depthRaster (g : Grid) (level : ℚ) : List (Option ℚ) :=
  g.cells.map (depthCell level)

/-- Total water volume of a depth raster: sum of depth × cell area over the
watershed (no-data cells contribute nothing). -/
def depthSum (g : Grid) (level : ℚ) : ℚ :=
  ((depthRaster g level).map (fun o => o.getD 0 * g.cellArea)).sum

/-! ## Result Merger -/

/-- Modelled from the spec: cell-level overlap policy of the Result Merger
of `Local_Merge_v2.py` (not in the available sources).  Given the values
the per-watershed depth rasters contribute at one cell (`none` where a
raster does not cover the cell), the merged value is the maximum of the
contributions, or no-data when no watershed covers the cell. -/
def mergeCell (contribs : List (Option ℚ)) : Option ℚ :=
  match contribs.filterMap id with
  | [] => none
  | d :: ds => some (ds.foldl max d)

/-! ## Concrete example inputs for witnesses and counterexamples -/

/-- A small CN lookup table used to exercise the CN Mapper. -/
def wsTable : List (ℤ × ℚ) := [(10, 36), (20, 48)]

/-- A classification cell list with a no-data cell and an unmapped code 75. -/
def wsCells : List (Option ℤ) := [none, some 20, some 75]

/-- A three-cell elevation grid with a no-data hole, cell area 2 m². -/
def gridMono : Grid := { cells := [some 1, none, some 3], cellArea := 2 }

/-- A two-cell elevation grid (elevations 0 m and 10 m), cell area 1 m². -/
def gridSolve : Grid := { cells := [some 0, some 10], cellArea := 1 }

/-- The same two valid elevations with a no-data hole between them, so the
valid-cell count (2) is smaller than the cell count (3). -/
def gridSolveHole : Grid := { cells := [some 0, none, some 10], cellArea := 1 }

/-- A three-cell elevation grid with a no-data hole, cell area 4 m². -/
def gridDepth : Grid := { cells := [some 2, none, some 5], cellArea := 4 }

/-- A shallow two-cell grid whose total depression volume is only 1 m³. -/
def gridOverflow : Grid := { cells := [some 0, some 1], cellArea := 1 }

/-- Depth contributions of the watersheds covering one merged cell. -/
def mergeContribs : List (Option ℚ) := [some 1, none]

/-! ## Helper lemmas -/

theorem foldl_min_le_init (es : List ℚ) : ∀ e : ℚ, es.foldl min e ≤ e := by
  induction es with
  | nil => intro e; exact le_refl e
  | cons a es ih =>
    intro e
    calc (a :: es).foldl min e = es.foldl min (min e a) := rfl
      _ ≤ min e a := ih (min e a)
      _ ≤ e := min_le_left e a

theorem foldl_min_le_mem (es : List ℚ) :
    ∀ e x : ℚ, x ∈ es → es.foldl min e ≤ x := by
  induction es with
  | nil => intro e x hx; cases hx
  | cons a es ih =>
    intro e x hx
    rcases List.mem_cons.mp hx with h | h
    · subst h
      calc es.foldl min (min e x) ≤ min e x := foldl_min_le_init es (min e x)
        _ ≤ x := min_le_right e x
    · exact ih (min e a) x h

theorem le_foldl_max_init (es : List ℚ) : ∀ e : ℚ, e ≤ es.foldl max e := by
  induction es with
  | nil => intro e; exact le_refl e
  | cons a es ih =>
    intro e
    calc e ≤ max e a := le_max_left e a
      _ ≤ es.foldl max (max e a) := ih (max e a)

theorem le_foldl_max_mem (es : List ℚ) :
    ∀ e x : ℚ, x ∈ es → x ≤ es.foldl max e := by
  induction es with
  | nil => intro e x hx; cases hx
  | cons a es ih =>
    intro e x hx
    rcases List.mem_cons.mp hx with h | h
    · subst h
      calc x ≤ max e x := le_max_right e x
        _ ≤ es.foldl max (max e x) := le_foldl_max_init es (max e x)
    · exact ih (max e a) x h

theorem foldl_max_mem (es : List ℚ) : ∀ e : ℚ, es.foldl max e ∈ e :: es := by
  induction es with
  | nil => intro e; exact List.mem_singleton.mpr rfl
  | cons a es ih =>
    intro e
    show es.foldl max (max e a) ∈ e :: a :: es
    rcases List.mem_cons.mp (ih (max e a)) with h | h
    · rw [h]
      rcases max_choice e a with hc | hc <;> rw [hc]
      · exact List.mem_cons_self e (a :: es)
      · exact List.mem_cons.mpr (Or.inr (List.mem_cons_self a es))
    · exact List.mem_cons.mpr (Or.inr (List.mem_cons.mpr (Or.inr h)))

theorem minElev_le (g : Grid) (e : ℚ) (he : e ∈ validElevs g) : minElev g ≤ e := by
  unfold minElev
  cases hv : validElevs g with
  | nil => rw [hv] at he; cases he
  | cons v vs =>
    rw [hv] at he
    rcases List.mem_cons.mp he with h | h
    · subst h; exact foldl_min_le_init vs e
    · exact foldl_min_le_mem vs v e h

theorem le_maxElev (g : Grid) (e : ℚ) (he : e ∈ validElevs g) : e ≤ maxElev g := by
  unfold maxElev
  cases hv : validElevs g with
  | nil => rw [hv] at he; cases he
  | cons v vs =>
    rw [hv] at he
    rcases List.mem_cons.mp he with h | h
    · subst h; exact le_foldl_max_init vs e
    · exact le_foldl_max_mem vs v e h

theorem minElev_le_maxElev (g : Grid) (hne : validElevs g ≠ []) :
    minElev g ≤ maxElev g := by
  cases hv : validElevs g with
  | nil => exact absurd hv hne
  | cons v vs =>
    have hv' : v ∈ validElevs g := by rw [hv]; exact List.mem_cons_self v vs
    exact le_trans (minElev_le g v hv') (le_maxElev g v hv')

theorem cellVol_nonneg (area level : ℚ) (hA : 0 ≤ area) (c : Option ℚ) :
    0 ≤ cellVol area level c := by
  cases c with
  | none => simp [cellVol]
  | some e =>
    simp only [cellVol]
    split
    · rename_i h; exact mul_nonneg (by linarith) hA
    · exact le_refl 0

theorem cellVol_mono (area a b : ℚ) (hA : 0 ≤ area) (hab : a ≤ b) (c : Option ℚ) :
    cellVol area a c ≤ cellVol area b c := by
  cases c with
  | none => simp [cellVol]
  | some e =>
    simp only [cellVol]
    split
    · rename_i h
      rw [if_pos (lt_of_lt_of_le h hab)]
      exact mul_le_mul_of_nonneg_right (by linarith) hA
    · rename_i h
      split
      · rename_i h2; exact mul_nonneg (by linarith) hA
      · exact le_refl 0

theorem cellVol_lip (area a b : ℚ) (hA : 0 ≤ area) (hab : a ≤ b) (c : Option ℚ) :
    cellVol area b c - cellVol area a c ≤ area * (b - a) := by
  cases c with
  | none => simp [cellVol]; exact mul_nonneg hA (by linarith)
  | some e =>
    simp only [cellVol]
    by_cases ha : e < a
    · rw [if_pos ha, if_pos (lt_of_lt_of_le ha hab)]
      have : (b - e) * area - (a - e) * area = area * (b - a) := by ring
      linarith [this.ge]
    · rw [if_neg ha]
      by_cases hb : e < b
      · rw [if_pos hb]
        have hae : a ≤ e := le_of_not_lt ha
        calc (b - e) * area - 0 = (b - e) * area := by ring
          _ ≤ (b - a) * area :=
            mul_le_mul_of_nonneg_right (by linarith) hA
          _ = area * (b - a) := by ring
      · rw [if_neg hb]
        simp
        exact mul_nonneg hA (by linarith)

theorem volAux_cons (area level : ℚ) (c : Option ℚ) (cs : List (Option ℚ)) :
    volAux area level (c :: cs) = cellVol area level c + volAux area level cs := by
  simp [volAux]

theorem volAux_mono (area a b : ℚ) (hA : 0 ≤ area) (hab : a ≤ b)
    (cs : List (Option ℚ)) : volAux area a cs ≤ volAux area b cs := by
  induction cs with
  | nil => simp [volAux]
  | cons c cs ih =>
    rw [volAux_cons, volAux_cons]
    exact add_le_add (cellVol_mono area a b hA hab c) ih

theorem volAux_lip (area a b : ℚ) (hA : 0 ≤ area) (hab : a ≤ b)
    (cs : List (Option ℚ)) :
    volAux area b cs - volAux area a cs ≤
      ((cs.filterMap id).length : ℚ) * area * (b - a) := by
  induction cs with
  | nil => simp [volAux]
  | cons c cs ih =>
    rw [volAux_cons, volAux_cons]
    cases c with
    | none =>
      have hfm : ((none :: cs : List (Option ℚ)).filterMap id) = cs.filterMap id := by
        simp [List.filterMap]
      rw [hfm]
      simp only [cellVol]
      linarith
    | some e =>
      have hc := cellVol_lip area a b hA hab (some e)
      have hfm : ((some e :: cs : List (Option ℚ)).filterMap id) =
          e :: cs.filterMap id := by
        simp [List.filterMap]
      rw [hfm]
      have hlen : ((e :: cs.filterMap id).length : ℚ) * area * (b - a) =
          ((cs.filterMap id).length : ℚ) * area * (b - a) + area * (b - a) := by
        simp [List.length_cons]
        ring
      rw [hlen]
      linarith

theorem volume_minElev (g : Grid) : g.volume (minElev g) = 0 := by
  unfold Grid.volume volAux
  apply List.sum_eq_zero
  intro x hx
  rcases List.mem_map.mp hx with ⟨c, hc, hcx⟩
  subst hcx
  cases c with
  | none => rfl
  | some e =>
    have he : e ∈ validElevs g := by
      unfold validElevs
      exact List.mem_filterMap.mpr ⟨some e, hc, rfl⟩
    simp only [cellVol]
    rw [if_neg (not_lt.mpr (minElev_le g e he))]

theorem bisect_spec (area : ℚ) (cs : List (Option ℚ)) (target tol : ℚ) :
    ∀ (n : ℕ) (lo hi : ℚ), lo ≤ hi →
      volAux area lo cs ≤ target → target ≤ volAux area hi cs →
      (bisect area cs target tol n lo hi).1 ≤ (bisect area cs target tol n lo hi).2 ∧
      volAux area (bisect area cs target tol n lo hi).1 cs ≤ target ∧
      target ≤ volAux area (bisect area cs target tol n lo hi).2 cs ∧
      ((bisect area cs target tol n lo hi).2 - (bisect area cs target tol n lo hi).1 < tol ∨
        (bisect area cs target tol n lo hi).2 - (bisect area cs target tol n lo hi).1 ≤
          (hi - lo) / 2 ^ n) := by
  intro n
  induction n with
  | zero =>
    intro lo hi h1 h2 h3
    simp only [bisect]
    exact ⟨h1, h2, h3, Or.inr (by norm_num)⟩
  | succ n ih =>
    intro lo hi h1 h2 h3
    by_cases htol : hi - lo < tol
    · simp only [bisect, if_pos htol]
      exact ⟨h1, h2, h3, Or.inl htol⟩
    · have hdiv : (hi - lo) / 2 / 2 ^ n = (hi - lo) / 2 ^ (n + 1) := by
        rw [div_div, pow_succ, mul_comm]
      by_cases hmid : volAux area ((lo + hi) / 2) cs < target
      · have hmle : (lo + hi) / 2 ≤ hi := by linarith
        have hres := ih ((lo + hi) / 2) hi hmle (le_of_lt hmid) h3
        simp only [bisect, if_neg htol, if_pos hmid]
        refine ⟨hres.1, hres.2.1, hres.2.2.1, ?_⟩
        rcases hres.2.2.2 with h | h
        · exact Or.inl h
        · right
          have heq : hi - (lo + hi) / 2 = (hi - lo) / 2 := by ring
          rw [heq, hdiv] at h
          exact h
      · have hmge : lo ≤ (lo + hi) / 2 := by linarith
        have hres := ih lo ((lo + hi) / 2) hmge h2 (le_of_not_lt hmid)
        simp only [bisect, if_neg htol, if_neg hmid]
        refine ⟨hres.1, hres.2.1, hres.2.2.1, ?_⟩
        rcases hres.2.2.2 with h | h
        · exact Or.inl h
        · right
          have heq : (lo + hi) / 2 - lo = (hi - lo) / 2 := by ring
          rw [heq, hdiv] at h
          exact h

theorem solve_of_overflow (g : Grid) (target tol : ℚ) (maxIter : ℕ)
    (h : g.volume (maxElev g) < target) :
    solve g target tol maxIter =
      { level := maxElev g, achieved := g.volume (maxElev g),
        converged := false, overflow := true } := by
  simp only [solve, if_pos h]

theorem solve_of_not_overflow (g : Grid) (target tol : ℚ) (maxIter : ℕ)
    (h : ¬ g.volume (maxElev g) < target) :
    solve g target tol maxIter =
      { level := ((bisect g.cellArea g.cells target tol maxIter (minElev g) (maxElev g)).1 +
            (bisect g.cellArea g.cells target tol maxIter (minElev g) (maxElev g)).2) / 2,
        achieved := g.volume
          (((bisect g.cellArea g.cells target tol maxIter (minElev g) (maxElev g)).1 +
            (bisect g.cellArea g.cells target tol maxIter (minElev g) (maxElev g)).2) / 2),
        converged := decide
          ((bisect g.cellArea g.cells target tol maxIter (minElev g) (maxElev g)).2 -
            (bisect g.cellArea g.cells target tol maxIter (minElev g) (maxElev g)).1 < tol),
        overflow := false } := by
  simp only [solve, if_neg h]

theorem solve_achieved_eq (g : Grid) (target tol : ℚ) (maxIter : ℕ) :
    (solve g target tol maxIter).achieved =
      g.volume ((solve g target tol maxIter).level) := by
  by_cases h : g.volume (maxElev g) < target
  · rw [solve_of_overflow g target tol maxIter h]
  · rw [solve_of_not_overflow g target tol maxIter h]

theorem depthCell_mul (area level : ℚ) (c : Option ℚ) :
    (depthCell level c).getD 0 * area = cellVol area level c := by
  cases c with
  | none => simp [depthCell, cellVol]
  | some e =>
    simp only [depthCell, Option.getD_some]
    by_cases h : e < level
    · rw [max_eq_right (by linarith : (0:ℚ) ≤ level - e)]
      simp [cellVol, h]
    · rw [max_eq_left (by linarith [not_lt.mp h] : level - e ≤ 0)]
      simp [cellVol, h]

theorem depthSum_eq_volume (g : Grid) (level : ℚ) :
    depthSum g level = g.volume level := by
  unfold depthSum depthRaster Grid.volume volAux
  rw [List.map_map]
  have : ((fun o => o.getD 0 * g.cellArea) ∘ depthCell level) =
      cellVol g.cellArea level :=
    funext fun c => depthCell_mul g.cellArea level c
  rw [this]

/-! ## Claim theorems -/

/-- C1: whenever the classification raster contains a land-cover class code
with no entry in the CN lookup table, the CN Mapper fails with an
`UnmappedClassError` naming an offending (genuinely unmapped, genuinely
present) code and the watershed, rather than silently defaulting or masking
the cell. -/
theorem cn_mapper_unmapped_fails (table : List (ℤ × ℚ)) (ws : String)
    (cells : List (Option ℤ))
    (h : ∃ code : ℤ, some code ∈ cells ∧ table.lookup code = none) :
    ∃ c : ℤ, cnMap table ws cells = .error (.unmappedClass c ws) ∧
      some c ∈ cells ∧ table.lookup c = none := by
  induction cells with
  | nil => obtain ⟨code, hmem, _⟩ := h; cases hmem
  | cons c0 rest ih =>
    cases c0 with
    | none =>
      obtain ⟨code, hmem, hlk⟩ := h
      have hmem' : some code ∈ rest := by
        rcases List.mem_cons.mp hmem with h' | h'
        · exact absurd h' (by simp)
        · exact h'
      obtain ⟨c, hc, hcm, hcl⟩ := ih ⟨code, hmem', hlk⟩
      refine ⟨c, ?_, List.mem_cons.mpr (Or.inr hcm), hcl⟩
      show (cnMap table ws rest).map (fun r => none :: r) =
        .error (.unmappedClass c ws)
      rw [hc]; rfl
    | some code0 =>
      cases hlk0 : table.lookup code0 with
      | none =>
        refine ⟨code0, ?_, List.mem_cons_self _ _, hlk0⟩
        show (match table.lookup code0 with
          | some cn => (cnMap table ws rest).map (fun r => some cn :: r)
          | none => Except.error (.unmappedClass code0 ws)) =
            Except.error (.unmappedClass code0 ws)
        rw [hlk0]
      | some cn =>
        obtain ⟨code, hmem, hlk⟩ := h
        have hne : code ≠ code0 := by
          intro he; rw [he, hlk0] at hlk; cases hlk
        have hmem' : some code ∈ rest := by
          rcases List.mem_cons.mp hmem with h' | h'
          · exact absurd (Option.some.inj h') hne
          · exact h'
        obtain ⟨c, hc, hcm, hcl⟩ := ih ⟨code, hmem', hlk⟩
        refine ⟨c, ?_, List.mem_cons.mpr (Or.inr hcm), hcl⟩
        show (match table.lookup code0 with
          | some cn => (cnMap table ws rest).map (fun r => some cn :: r)
          | none => Except.error (.unmappedClass code0 ws)) =
            Except.error (.unmappedClass c ws)
        rw [hlk0, hc]; rfl

/-- C1 witness: on a concrete cell list containing the unmapped code 75, the
CN Mapper fails with the error naming an unmapped code of the list. -/
theorem cn_mapper_unmapped_fails_witness :
    (∃ code : ℤ, some code ∈ wsCells ∧ wsTable.lookup code = none) ∧
    ∃ c : ℤ, cnMap wsTable "HYBAS-4120017020" wsCells =
        .error (.unmappedClass c "HYBAS-4120017020") ∧
      some c ∈ wsCells ∧ wsTable.lookup c = none :=
  ⟨⟨75, by decide, by decide⟩,
    cn_mapper_unmapped_fails wsTable "HYBAS-4120017020" wsCells
      ⟨75, by decide, by decide⟩⟩

/-- C2 counterexample: with CN = 85 and P = 297.343 mm the SCS-CN formula of
the spec yields Q ≈ 249.58 mm, more than 10 mm away from the 260.0 mm the
claim asserts, so "Q approximately 260.0 mm" is false. -/
theorem runoff_example_not_260 :
    (260 : ℚ) - runoffQ 85 (297343 / 1000) > 10 := by
  norm_num [runoffQ, iaAbs, sRet]

/-- C2 amended: for CN strictly between 0 and 100 the Runoff Calculator
returns Q = (P - Ia)² / (P - Ia + S) when P > Ia and Q = 0 otherwise, with
S = 25400/CN - 254 and Ia = 0.2·S, and the target volume equals Q converted
to metres times the watershed planar area; in particular CN = 85 and
P = 297.343 mm give Q ≈ 249.58 mm (not 260.0 mm). -/
theorem runoff_formula (cn P area : ℚ) (h0 : 0 < cn) (h1 : cn < 100) :
    (iaAbs cn < P →
      runoffQ cn P = (P - iaAbs cn) ^ 2 / (P - iaAbs cn + sRet cn)) ∧
    (P ≤ iaAbs cn → runoffQ cn P = 0) ∧
    targetVolume (runoffQ cn P) area = runoffQ cn P / 1000 * area ∧
    2495 / 10 < runoffQ 85 (297343 / 1000) ∧
    runoffQ 85 (297343 / 1000) < 2496 / 10 := by
  have hcn0 : cn ≠ 0 := ne_of_gt h0
  have hcn100 : cn ≠ 100 := ne_of_lt h1
  refine ⟨fun h => ?_, fun h => ?_, rfl, ?_, ?_⟩
  · simp [runoffQ, hcn0, hcn100, h]
  · simp [runoffQ, hcn0, hcn100, not_lt.mpr h]
  · norm_num [runoffQ, iaAbs, sRet]
  · norm_num [runoffQ, iaAbs, sRet]

/-- C2 witness: the amended formula evaluated at CN = 85,
P = 297.343 mm, area = 1000 m². -/
theorem runoff_formula_witness :
    (0 : ℚ) < 85 ∧ (85 : ℚ) < 100 ∧ iaAbs 85 < 297343 / 1000 ∧
    runoffQ 85 (297343 / 1000) =
      (297343 / 1000 - iaAbs 85) ^ 2 / (297343 / 1000 - iaAbs 85 + sRet 85) ∧
    targetVolume (runoffQ 85 (297343 / 1000)) 1000 =
      runoffQ 85 (297343 / 1000) / 1000 * 1000 :=
  ⟨by norm_num, by norm_num, by norm_num [iaAbs, sRet],
    (runoff_formula 85 (297343 / 1000) 1000 (by norm_num) (by norm_num)).1
      (by norm_num [iaAbs, sRet]),
    (runoff_formula 85 (297343 / 1000) 1000 (by norm_num) (by norm_num)).2.2.1⟩

/-- C3: for every fixed elevation grid (no-data cells excluded from the
accumulation by `cellVol`, never read as zero elevation) and every pair of
candidate levels a ≤ b, the Volume Function satisfies
volume(a) ≤ volume(b). -/
theorem volume_function_monotone (g : Grid) (a b : ℚ)
    (hA : 0 ≤ g.cellArea) (hab : a ≤ b) : g.volume a ≤ g.volume b :=
  volAux_mono g.cellArea a b hA hab g.cells

/-- C3 witness: monotonicity evaluated on a concrete grid with a no-data
hole, at levels 2 ≤ 4. -/
theorem volume_function_monotone_witness :
    (0 : ℚ) ≤ gridMono.cellArea ∧ (2 : ℚ) ≤ 4 ∧
    gridMono.volume 2 ≤ gridMono.volume 4 :=
  ⟨by norm_num [gridMono], by norm_num,
    volume_function_monotone gridMono 2 4 (by norm_num [gridMono]) (by norm_num)⟩

/-- C4 counterexample: on a concrete non-degenerate watershed with
target ≤ volume(hi) (target 5 m³, capacity 10 m³), the solver run with an
iteration budget of 2 and tolerance 0.1 m stops with convergence = false,
so the claim's unconditional "terminates with convergence = true" is
false. -/
theorem solver_convergence_unconditional_false :
    (5 : ℚ) ≤ gridSolve.volume (maxElev gridSolve) ∧
    minElev gridSolve < maxElev gridSolve ∧
    (solve gridSolve 5 (1 / 10) 2).converged = false := by
  refine ⟨?_, ?_, ?_⟩ <;>
    norm_num [solve, bisect, Grid.volume, volAux, cellVol, minElev, maxElev,
      validElevs, gridSolve, List.filterMap, List.foldl_cons, List.foldl_nil,
      min_def, max_def]

/-- C4 amended: for every non-degenerate watershed (nonempty valid cells,
nonnegative cell area), every nonnegative target with
target ≤ volume(hi), and an iteration budget large enough for the
elevation range and tolerance (hi - lo < tol·2^maxIter), the Binary-Search
Solver terminates with convergence = true and returns a level whose
impounded volume is within the corresponding volume tolerance (total valid
cell area × elevation tolerance) of the target. -/
theorem solver_converges (g : Grid) (target tol : ℚ) (maxIter : ℕ)
    (hA : 0 ≤ g.cellArea) (hne : validElevs g ≠ [])
    (h0 : 0 ≤ target) (hT : target ≤ g.volume (maxElev g))
    (hbudget : maxElev g - minElev g < tol * 2 ^ maxIter) :
    (solve g target tol maxIter).converged = true ∧
    |(solve g target tol maxIter).achieved - target| ≤
      ((validElevs g).length : ℚ) * g.cellArea * tol := by
  have hlh := minElev_le_maxElev g hne
  have hinit : volAux g.cellArea (minElev g) g.cells ≤ target := by
    have hz := volume_minElev g
    unfold Grid.volume at hz
    rw [hz]
    exact h0
  have hnolt : ¬ g.volume (maxElev g) < target := not_lt.mpr hT
  have hspec := bisect_spec g.cellArea g.cells target tol maxIter
    (minElev g) (maxElev g) hlh hinit hT
  set p := bisect g.cellArea g.cells target tol maxIter (minElev g) (maxElev g)
    with hp
  have hrange : p.2 - p.1 < tol := by
    rcases hspec.2.2.2 with h | h
    · exact h
    · have h2pos : (0 : ℚ) < 2 ^ maxIter := by positivity
      have hq : (maxElev g - minElev g) / 2 ^ maxIter < tol := by
        rw [div_lt_iff₀ h2pos]
        linarith
      linarith
  rw [solve_of_not_overflow g target tol maxIter hnolt]
  constructor
  · exact decide_eq_true hrange
  · have hl1 : p.1 ≤ (p.1 + p.2) / 2 := by linarith [hspec.1]
    have hl2 : (p.1 + p.2) / 2 ≤ p.2 := by linarith [hspec.1]
    have hm1 : volAux g.cellArea p.1 g.cells ≤
        volAux g.cellArea ((p.1 + p.2) / 2) g.cells :=
      volAux_mono g.cellArea p.1 ((p.1 + p.2) / 2) hA hl1 g.cells
    have hm2 : volAux g.cellArea ((p.1 + p.2) / 2) g.cells ≤
        volAux g.cellArea p.2 g.cells :=
      volAux_mono g.cellArea ((p.1 + p.2) / 2) p.2 hA hl2 g.cells
    have hlip := volAux_lip g.cellArea p.1 p.2 hA hspec.1 g.cells
    have hlen : (0 : ℚ) ≤ ((g.cells.filterMap id).length : ℚ) * g.cellArea :=
      mul_nonneg (Nat.cast_nonneg _) hA
    have hmt : ((g.cells.filterMap id).length : ℚ) * g.cellArea * (p.2 - p.1) ≤
        ((g.cells.filterMap id).length : ℚ) * g.cellArea * tol :=
      mul_le_mul_of_nonneg_left (le_of_lt hrange) hlen
    show |g.volume ((p.1 + p.2) / 2) - target| ≤
      ((validElevs g).length : ℚ) * g.cellArea * tol
    unfold Grid.volume validElevs
    apply abs_le.mpr
    constructor
    · have := hspec.2.2.1
      linarith
    · have := hspec.2.1
      linarith

/-- C4 witness: the amended convergence statement evaluated on a concrete
watershed with a no-data hole (target 5 m³, tolerance 1 m, budget 4); the
volume-tolerance bound uses the valid-cell area (2 m²), not the whole
three-cell grid. -/
theorem solver_converges_witness :
    (0 : ℚ) ≤ gridSolveHole.cellArea ∧ validElevs gridSolveHole ≠ [] ∧
    (0 : ℚ) ≤ 5 ∧ (5 : ℚ) ≤ gridSolveHole.volume (maxElev gridSolveHole) ∧
    maxElev gridSolveHole - minElev gridSolveHole < 1 * 2 ^ 4 ∧
    (solve gridSolveHole 5 1 4).converged = true ∧
    |(solve gridSolveHole 5 1 4).achieved - 5| ≤
      ((validElevs gridSolveHole).length : ℚ) * gridSolveHole.cellArea * 1 :=
  ⟨by norm_num [gridSolveHole],
    by simp [validElevs, gridSolveHole, List.filterMap],
    by norm_num,
    by norm_num [Grid.volume, volAux, cellVol, maxElev, validElevs, gridSolveHole,
      List.filterMap, List.foldl_cons, List.foldl_nil, max_def],
    by norm_num [minElev, maxElev, validElevs, gridSolveHole, List.filterMap,
      List.foldl_cons, List.foldl_nil, min_def, max_def],
    (solver_converges gridSolveHole 5 1 4 (by norm_num [gridSolveHole])
      (by simp [validElevs, gridSolveHole, List.filterMap]) (by norm_num)
      (by norm_num [Grid.volume, volAux, cellVol, maxElev, validElevs,
        gridSolveHole, List.filterMap, List.foldl_cons, List.foldl_nil, max_def])
      (by norm_num [minElev, maxElev, validElevs, gridSolveHole, List.filterMap,
        List.foldl_cons, List.foldl_nil, min_def, max_def])).1,
    (solver_converges gridSolveHole 5 1 4 (by norm_num [gridSolveHole])
      (by simp [validElevs, gridSolveHole, List.filterMap]) (by norm_num)
      (by norm_num [Grid.volume, volAux, cellVol, maxElev, validElevs,
        gridSolveHole, List.filterMap, List.foldl_cons, List.foldl_nil, max_def])
      (by norm_num [minElev, maxElev, validElevs, gridSolveHole, List.filterMap,
        List.foldl_cons, List.foldl_nil, min_def, max_def])).2⟩

/-- C5: the Runoff Calculator accepts the boundary inputs CN = 0 (Q = 0 via
its own branch, no division by CN) and CN = 100 (closed-form full runoff
Q = P exactly for every P > 0, not via the general formula whose S would be
0), and the retention S = 25400/CN - 254 is never negative on the whole
admissible range 0 < CN ≤ 100. -/
theorem runoff_boundary (P : ℚ) (_hP : 0 < P) :
    runoffQ 100 P = P ∧ runoffQ 0 P = 0 ∧
    ∀ cn : ℚ, 0 < cn → cn ≤ 100 → 0 ≤ sRet cn := by
  refine ⟨by norm_num [runoffQ], by norm_num [runoffQ], ?_⟩
  intro cn hc0 hc100
  unfold sRet
  have h2 : (254 : ℚ) ≤ 25400 / cn := by
    rw [le_div_iff₀ hc0]
    linarith
  linarith

/-- C5 witness: the boundary behaviour evaluated at P = 3 mm and the
retention sign at CN = 85. -/
theorem runoff_boundary_witness :
    (0 : ℚ) < 3 ∧ runoffQ 100 3 = 3 ∧ runoffQ 0 3 = 0 ∧
    (0 : ℚ) < 85 ∧ (85 : ℚ) ≤ 100 ∧ 0 ≤ sRet 85 :=
  ⟨by norm_num, (runoff_boundary 3 (by norm_num)).1,
    (runoff_boundary 3 (by norm_num)).2.1, by norm_num, by norm_num,
    (runoff_boundary 3 (by norm_num)).2.2 85 (by norm_num) (by norm_num)⟩

/-- C6: for every solved level the Depth Raster Generator assigns
depth = max(0, solved_level - elevation) to each valid cell and no-data
elsewhere, the output is never negative, is zero at every cell with
elevation ≥ solved level, and the sum of depth × cell_area over the
watershed equals the solver's achieved volume exactly (hence within any
convergence tolerance). -/
theorem depth_raster_correct (g : Grid) (target tol : ℚ) (maxIter : ℕ) :
    (∀ e : ℚ, depthCell ((solve g target tol maxIter).level) (some e) =
      some (max 0 ((solve g target tol maxIter).level - e))) ∧
    depthCell ((solve g target tol maxIter).level) none = none ∧
    (∀ (c : Option ℚ) (x : ℚ),
      depthCell ((solve g target tol maxIter).level) c = some x → 0 ≤ x) ∧
    (∀ e : ℚ, (solve g target tol maxIter).level ≤ e →
      depthCell ((solve g target tol maxIter).level) (some e) = some 0) ∧
    depthSum g ((solve g target tol maxIter).level) =
      (solve g target tol maxIter).achieved := by
  refine ⟨fun e => rfl, rfl, ?_, ?_, ?_⟩
  · intro c x hx
    cases c with
    | none => exact absurd hx (by simp [depthCell])
    | some e =>
      have : max 0 ((solve g target tol maxIter).level - e) = x :=
        Option.some.inj hx
      rw [← this]
      exact le_max_left _ _
  · intro e he
    show some (max 0 ((solve g target tol maxIter).level - e)) = some 0
    rw [max_eq_left (by linarith : (solve g target tol maxIter).level - e ≤ 0)]
  · rw [depthSum_eq_volume, solve_achieved_eq]

/-- C6 witness: nonnegativity of a concrete depth cell and exact agreement
of the depth-raster volume with the solver's achieved volume on a concrete
grid with a no-data hole. -/
theorem depth_raster_correct_witness :
    0 ≤ max 0 ((solve gridDepth 1 (1 / 10) 8).level - 2) ∧
    depthSum gridDepth ((solve gridDepth 1 (1 / 10) 8).level) =
      (solve gridDepth 1 (1 / 10) 8).achieved :=
  ⟨(depth_raster_correct gridDepth 1 (1 / 10) 8).2.2.1 (some 2)
      (max 0 ((solve gridDepth 1 (1 / 10) 8).level - 2))
      ((depth_raster_correct gridDepth 1 (1 / 10) 8).1 2),
    (depth_raster_correct gridDepth 1 (1 / 10) 8).2.2.2.2⟩

/-- C7: the Result Merger's cell policy returns the maximum contributing
depth at any cell two or more depth rasters cover (0.3 m and 0.7 m merge to
0.7 m), leaves cells covered by no watershed as no-data, and in general the
merged value at a cell is one of the contributions and an upper bound of
all of them. -/
theorem merge_max_policy :
    mergeCell [some (3 / 10), some (7 / 10)] = some (7 / 10) ∧
    (∀ l : List (Option ℚ), l.filterMap id = [] → mergeCell l = none) ∧
    (∀ (l : List (Option ℚ)) (v : ℚ), mergeCell l = some v →
      some v ∈ l ∧ ∀ w : ℚ, some w ∈ l → w ≤ v) := by
  refine ⟨by norm_num [mergeCell, List.filterMap, max_def], ?_, ?_⟩
  · intro l hl
    unfold mergeCell
    rw [hl]
  · intro l v hv
    unfold mergeCell at hv
    cases hfm : l.filterMap id with
    | nil => rw [hfm] at hv; exact absurd hv (by simp)
    | cons d ds =>
      rw [hfm] at hv
      have hv' : ds.foldl max d = v := Option.some.inj hv
      constructor
      · have hmem : v ∈ l.filterMap id := by
          rw [hfm, ← hv']
          exact foldl_max_mem ds d
        obtain ⟨a, hal, ha⟩ := List.mem_filterMap.mp hmem
        have : a = some v := ha
        rw [this] at hal
        exact hal
      · intro w hw
        have hwf : w ∈ l.filterMap id :=
          List.mem_filterMap.mpr ⟨some w, hw, rfl⟩
        rw [hfm] at hwf
        rw [← hv']
        rcases List.mem_cons.mp hwf with h | h
        · rw [h]
          exact le_foldl_max_init ds d
        · exact le_foldl_max_mem ds d w h

/-- C7 witness: the no-coverage case on `[none]` and the max policy on the
concrete contribution list `[some 1, none]`. -/
theorem merge_max_policy_witness :
    mergeCell [none] = none ∧
    some (1 : ℚ) ∈ mergeContribs ∧ (1 : ℚ) ≤ 1 :=
  ⟨merge_max_policy.2.1 [none] (by simp [List.filterMap]),
    (merge_max_policy.2.2 mergeContribs 1
      (by norm_num [mergeCell, mergeContribs, List.filterMap])).1,
    (merge_max_policy.2.2 mergeContribs 1
      (by norm_num [mergeCell, mergeContribs, List.filterMap])).2 1
      (by simp [mergeContribs])⟩

/-- C8: the Binary-Search Solver records an `OverflowWarning` if and only if
volume(hi) < target, where hi is the watershed's maximum valid elevation,
and in that case it returns level = hi (the watershed rim) without
extrapolating above it. -/
theorem solver_overflow_iff (g : Grid) (target tol : ℚ) (maxIter : ℕ) :
    ((solve g target tol maxIter).overflow = true ↔
      g.volume (maxElev g) < target) ∧
    (g.volume (maxElev g) < target →
      (solve g target tol maxIter).level = maxElev g) := by
  by_cases h : g.volume (maxElev g) < target
  · rw [solve_of_overflow g target tol maxIter h]
    exact ⟨by simp [h], fun _ => rfl⟩
  · rw [solve_of_not_overflow g target tol maxIter h]
    exact ⟨by simp [h], fun hc => absurd hc h⟩

/-- C8 witness: a concrete watershed whose depression capacity (1 m³) is
below the target (5 m³): the solver records the overflow and clips the
level to the rim. -/
theorem solver_overflow_iff_witness :
    gridOverflow.volume (maxElev gridOverflow) < 5 ∧
    (solve gridOverflow 5 (1 / 10) 8).overflow = true ∧
    (solve gridOverflow 5 (1 / 10) 8).level = maxElev gridOverflow :=
  ⟨by norm_num [Grid.volume, volAux, cellVol, maxElev, validElevs, gridOverflow,
      List.filterMap, List.foldl_cons, List.foldl_nil, max_def],
    (solver_overflow_iff gridOverflow 5 (1 / 10) 8).1.mpr
      (by norm_num [Grid.volume, volAux, cellVol, maxElev, validElevs,
        gridOverflow, List.filterMap, List.foldl_cons, List.foldl_nil, max_def]),
    (solver_overflow_iff gridOverflow 5 (1 / 10) 8).2
      (by norm_num [Grid.volume, volAux, cellVol, maxElev, validElevs,
        gridOverflow, List.filterMap, List.foldl_cons, List.foldl_nil, max_def])⟩

/-- C9 counterexample: the two grids the data-preparation step exports for
the core are written at different cell sizes (the DEM at 30 m, the CN
raster at 10 m), so "identical cell size and coordinate reference" is false
as stated. -/
theorem dataprep_grid_alignment_false :
    ¬ (demExport.scale = cnExport.scale ∧ demExport.crs = cnExport.crs) := by
  intro h
  have h1 := h.1
  norm_num [demExport, cnExport] at h1

/-- C9 amended: the elevation and CN grids produced by the data-preparation
step share an identical coordinate reference (EPSG:32650), but their cell
sizes differ (30 m versus 10 m); identical cell size is established only by
the orchestration layer's later resampling, not by the data-preparation
exports. -/
theorem dataprep_crs_agreement :
    demExport.crs = cnExport.crs ∧ demExport.scale = 30 ∧ cnExport.scale = 10 :=
  ⟨rfl, rfl, rfl⟩

/-- C10: every CN value assigned by the class-code-to-CN lookup tables (the
GEE remap table `toValues` and the README's dynamic mapping rules) lies in
the interval [0, 100]. -/
theorem cn_values_in_range :
    (∀ v ∈ toValues, 0 ≤ v ∧ v ≤ 100) ∧
    (∀ p ∈ readmeCnRules, 0 ≤ p.2 ∧ p.2 ≤ 100) := by
  decide

/-- C10 witness: the range bound evaluated at the first GEE table entry
(36) and the README rule for water bodies (code 7 ↦ 30). -/
theorem cn_values_in_range_witness :
    ((0 : ℤ) ≤ 36 ∧ (36 : ℤ) ≤ 100) ∧
    ((0 : ℤ) ≤ ((7 : ℤ), (30 : ℤ)).2 ∧ ((7 : ℤ), (30 : ℤ)).2 ≤ 100) :=
  ⟨cn_values_in_range.1 36 (by decide),
    cn_values_in_range.2 ((7 : ℤ), (30 : ℤ)) (by decide)⟩

end FloodSim
